import Mathlib

/-!
Verification of the fingerprint-consistency engine of this repository.

The subsystem under study is the injected anti-fingerprint script
(class PlaywrightAntiFingerprintPlugin) together with the device-profile
catalog.  The definitions below are shallow embeddings of the JavaScript
source: numbers that the source manipulates as IEEE doubles are modelled
as rationals, timestamps as integers, the ambient Math.sin as an explicit
function argument, DOM storage as an explicit record, and JavaScript
exceptions as Except values.  Each definition carries a doc comment naming the
source function it embeds.
-/

/-- SeedStore models the two origin-scoped localStorage keys used by
getSessionSeed: the stored seed under SEED_KEY and the stored heartbeat
timestamp under HEARTBEAT_KEY.  A missing key is none.  The stored seed
string is modelled by the rational it denotes (JavaScript round-trips
Number.prototype.toString / parseFloat exactly). -/
structure SeedStore where
  storedSeed : Option ℚ
  heartbeat : Option ℤ
deriving DecidableEq

/-- Embedding of checkActiveSession inside getSessionSeed: a session is
live iff a heartbeat is stored and now minus the heartbeat is strictly
below the session timeout. -/
def checkActiveSession (store : SeedStore) (now timeoutMs : ℤ) : Bool :=
  match store.heartbeat with
  | none => false
  | some hb => decide (now - hb < timeoutMs)

/-- Embedding of getSessionSeed (the storage logic, lines 76-148 of the
injected script).  When cross-tab consistency is off the provided seed is
returned untouched.  Otherwise: read the stored seed; if none is stored
or the session is not live, write the provided seed and a fresh heartbeat
and use the provided seed; else use the stored seed.  The final source
line returns parseFloat(seed) with a Math.random() fallback when that
value is falsy, i.e. when the numeric seed is zero; the fallback draw is
passed in as rand.  Returns the resolved seed and the updated store. -/
def getSessionSeed (crossTab : Bool) (provided : ℚ) (store : SeedStore)
    (now timeoutMs : ℤ) (rand : ℚ) : ℚ × SeedStore :=
  if crossTab = false then (provided, store)
  else
    match store.storedSeed with
    | none =>
        ((if provided = 0 then rand else provided),
         ⟨some provided, some now⟩)
    | some s =>
        if checkActiveSession store now timeoutMs then
          ((if s = 0 then rand else s), store)
        else
          ((if provided = 0 then rand else provided),
           ⟨some provided, some now⟩)

/-- Claim C1 counterexample: with cross-tab consistency enabled, empty
storage and provided seed 0, the resolved seed is the Math.random()
fallback (here 1/2), not the provided seed 0, because the source returns
parseFloat(seed) with a falsy fallback.  The claim as stated says the
provided seed is always the one returned in this situation. -/
theorem C1_counterexample :
    getSessionSeed true 0 ⟨none, none⟩ 1000 5000 (1/2)
      = ((1 : ℚ)/2, ⟨some 0, some 1000⟩) ∧ ((1 : ℚ)/2) ≠ 0 := by
  constructor
  · rfl
  · norm_num

/-- Claim C1 as amended: for every nonzero provided seed, if no seed is
stored or the stored session is not live (heartbeat absent or at least
timeoutMs old), the provided seed is written together with a fresh
heartbeat and is the resolved seed; otherwise the nonzero stored seed is
resolved and the store is untouched.  In particular a heartbeat that is
sessionTimeout old or older forces the fresh provided seed. -/
theorem C1_amended (provided : ℚ) (store : SeedStore) (now timeoutMs : ℤ)
    (rand : ℚ) (hp : provided ≠ 0) :
    (store.storedSeed = none ∨ checkActiveSession store now timeoutMs = false →
      getSessionSeed true provided store now timeoutMs rand
        = (provided, ⟨some provided, some now⟩)) ∧
    (∀ s, store.storedSeed = some s → s ≠ 0 →
      checkActiveSession store now timeoutMs = true →
      getSessionSeed true provided store now timeoutMs rand = (s, store)) := by
  constructor
  · intro h
    unfold getSessionSeed
    rcases h with h | h
    · simp [h, hp]
    · cases hs : store.storedSeed with
      | none => simp [hp]
      | some s => simp [hs, h, hp]
  · intro s hs hs0 hlive
    unfold getSessionSeed
    simp [hs, hlive, hs0]

/-- Claim C1 witness: the amended theorem applied at a concrete call.  A
tab resolving with provided seed 7/10 against a store whose heartbeat is
exactly sessionTimeout old gets its own seed written and resolved. -/
theorem C1_witness :
    ((7 : ℚ)/10) ≠ 0 ∧
    checkActiveSession ⟨some (1/3), some 0⟩ 5000 5000 = false ∧
    getSessionSeed true ((7 : ℚ)/10) ⟨some (1/3), some 0⟩ 5000 5000 0
      = ((7 : ℚ)/10, ⟨some ((7 : ℚ)/10), some 5000⟩) := by
  refine ⟨by norm_num, by decide, ?_⟩
  exact (C1_amended ((7 : ℚ)/10) ⟨some (1/3), some 0⟩ 5000 5000 0
    (by norm_num)).1 (Or.inr (by decide))

/-- TabContext models one page context that ran the injected script with
cross-tab consistency enabled.  Initialization (source lines 141-146)
registers a BroadcastChannel object on the channel named
fingerprint_session whose onmessage answers every ping with a pong, so an
initialized tab always carries this responder. -/
structure TabContext where
  hasResponder : Bool
deriving DecidableEq

/-- Every tab that completed getSessionSeed owns the ping responder. -/
def initializedTab : TabContext := ⟨true⟩

/-- Count of channel objects that receive the teardown ping and answer
it.  Per the BroadcastChannel contract, postMessage delivers the message
to every channel object of the same name in the origin except the posting
object itself.  The beforeunload handler (source lines 119-138) posts the
ping on a freshly constructed channel, so the receivers are the responder
channels of all sibling tabs and also the responder channel the closing
tab itself registered at initialization. -/
def pingResponderCount (closing : TabContext) (siblings : List TabContext) : ℕ :=
  (if closing.hasResponder then 1 else 0)
    + siblings.countP (fun t => t.hasResponder)

/-- Embedding of the hasOtherTabs flag at the end of the 100 ms grace
period: it is true iff at least one pong came back, i.e. iff at least one
responder channel received the ping. -/
def hasOtherTabsFlag (closing : TabContext) (siblings : List TabContext) : Bool :=
  decide (0 < pingResponderCount closing siblings)

/-- Embedding of the grace-period callback: the seed and heartbeat keys
are removed iff no pong arrived. -/
def teardownRemovesKeys (closing : TabContext) (siblings : List TabContext) : Bool :=
  !(hasOtherTabsFlag closing siblings)

/-- Store contents after the teardown of one tab. -/
def storeAfterTeardown (store : SeedStore) (closing : TabContext)
    (siblings : List TabContext) : SeedStore :=
  if teardownRemovesKeys closing siblings then ⟨none, none⟩ else store

/-- Claim C2 evaluation at the failing input: a lone initialized tab (no
siblings) closes, yet the stored seed and heartbeat are not removed,
because the responder channel of the closing tab itself receives the teardown
ping and answers with a pong.  The same holds with any sibling list, so
the storage keys are never cleared by teardown at all:
last-tab-closes-session never happens. -/
theorem C2_code_eval :
    teardownRemovesKeys initializedTab [] = false ∧
    storeAfterTeardown ⟨some (1/2), some 0⟩ initializedTab []
      = ⟨some (1/2), some 0⟩ ∧
    teardownRemovesKeys initializedTab [initializedTab] = false := by
  refine ⟨by decide, ?_, by decide⟩
  unfold storeAfterTeardown
  simp [teardownRemovesKeys, hasOtherTabsFlag, pingResponderCount, initializedTab]

/-- EnvAccess models whether a browser capability (localStorage, the
BroadcastChannel constructor) is usable; unavailable means touching it
throws. -/
inductive EnvAccess where
  | ok
  | unavailable
deriving DecidableEq

/-- Embedding of getSessionSeed including its exception behavior.  The
source contains no try/catch: with cross-tab consistency enabled the very
first statement reads localStorage (line 100 via line 88), and line 141
constructs a BroadcastChannel, so if either capability throws, the
exception escapes getSessionSeed and reaches the page; Except.error
models that escaped exception.  With cross-tab consistency disabled
neither capability is touched. -/
def getSessionSeedExc (crossTab : Bool) (provided : ℚ)
    (storage channel : EnvAccess) (store : SeedStore)
    (now timeoutMs : ℤ) (rand : ℚ) : Except Unit (ℚ × SeedStore) :=
  if crossTab = false then .ok (provided, store)
  else
    match storage with
    | .unavailable => .error ()
    | .ok =>
      match channel with
      | .unavailable => .error ()
      | .ok => .ok (getSessionSeed true provided store now timeoutMs rand)

/-- Claim C3 counterexample: with cross-tab consistency enabled and
localStorage unavailable, seed resolution propagates the exception
instead of catching it and returning the provided seed 1/2. -/
theorem C3_counterexample :
    getSessionSeedExc true (1/2) .unavailable .ok ⟨none, none⟩ 0 5000 0
      = .error () ∧
    getSessionSeedExc true (1/2) .unavailable .ok ⟨none, none⟩ 0 5000 0
      ≠ .ok ((1 : ℚ)/2, ⟨some (1/2), some 0⟩) := by
  constructor
  · rfl
  · intro h
    exact Except.noConfusion h

/-- Claim C3 as amended: the coordinator has no exception handling.  With
cross-tab consistency disabled it returns the provided seed and never
touches storage or the channel, hence cannot throw; with both
capabilities available it resolves normally; but with cross-tab
consistency enabled and either capability unavailable, the exception
propagates to the hosting page. -/
theorem C3_amended (provided : ℚ) (storage channel : EnvAccess)
    (store : SeedStore) (now timeoutMs : ℤ) (rand : ℚ) :
    (getSessionSeedExc false provided storage channel store now timeoutMs rand
      = .ok (provided, store)) ∧
    (storage = .ok → channel = .ok →
      getSessionSeedExc true provided storage channel store now timeoutMs rand
        = .ok (getSessionSeed true provided store now timeoutMs rand)) ∧
    (storage = .unavailable ∨ channel = .unavailable →
      getSessionSeedExc true provided storage channel store now timeoutMs rand
        = .error ()) := by
  refine ⟨rfl, ?_, ?_⟩
  · intro hs hc
    subst hs; subst hc; rfl
  · intro h
    rcases h with h | h
    · subst h; rfl
    · subst h
      cases storage <;> rfl

/-- Claim C3 witness: the amended theorem applied at a concrete call with
the channel unavailable. -/
theorem C3_witness :
    getSessionSeedExc true ((3 : ℚ)/4) .ok .unavailable ⟨none, none⟩ 0 5000 0
      = .error () :=
  (C3_amended ((3 : ℚ)/4) .ok .unavailable ⟨none, none⟩ 0 5000 0).2.2
    (Or.inr rfl)

/-- SeededRandom state: the seed captured at construction and the call
counter, embedding the class SeededRandom of the injected script. -/
structure SeededRandom where
  seed : ℚ
  counter : ℕ
deriving DecidableEq

/-- Embedding of SeededRandom.next: increment the counter, then return
the fractional part of sin(seed * counter + counter) * 10000.  The
ambient Math.sin is the explicit argument sinF. -/
def SeededRandom.next (r : SeededRandom) (sinF : ℚ → ℚ) : ℚ × SeededRandom :=
  (Int.fract (sinF (r.seed * ((r.counter : ℚ) + 1) + ((r.counter : ℚ) + 1)) * 10000),
   ⟨r.seed, r.counter + 1⟩)

/-- Embedding of SeededRandom.float: next() scaled to the interval from
lo to hi. -/
def SeededRandom.float (r : SeededRandom) (sinF : ℚ → ℚ) (lo hi : ℚ) :
    ℚ × SeededRandom :=
  ((r.next sinF).1 * (hi - lo) + lo, (r.next sinF).2)

/-- Embedding of SeededRandom.int: the floor of float(lo, hi + 1).  The
arguments are modelled as integers, matching the inclusive integer-range
contract. -/
def SeededRandom.int (r : SeededRandom) (sinF : ℚ → ℚ) (lo hi : ℤ) :
    ℤ × SeededRandom :=
  (⌊(r.float sinF (lo : ℚ) ((hi : ℚ) + 1)).1⌋,
   (r.float sinF (lo : ℚ) ((hi : ℚ) + 1)).2)

/-- Embedding of SeededRandom.choice: a uniform pick via
int(0, length - 1); an empty array yields the JavaScript undefined,
modelled as none. -/
def SeededRandom.choice (r : SeededRandom) (sinF : ℚ → ℚ) (xs : List α) :
    Option α × SeededRandom :=
  ((if (r.int sinF 0 ((xs.length : ℤ) - 1)).1 < 0 then none
    else xs[(r.int sinF 0 ((xs.length : ℤ) - 1)).1.toNat]?),
   (r.int sinF 0 ((xs.length : ℤ) - 1)).2)

/-- Sequence of the first n outputs of next() from a given state. -/
def SeededRandom.run (r : SeededRandom) (sinF : ℚ → ℚ) : ℕ → List ℚ
  | 0 => []
  | n + 1 => (r.next sinF).1 :: SeededRandom.run (r.next sinF).2 sinF n

/-- Claim C4: next() advances the counter by exactly one and returns the
fractional part of sin(seed * counter + counter) * 10000, which lies in
the interval from 0 inclusive to 1 exclusive; int(lo, hi) lies in the
inclusive range from lo to hi whenever lo is at most hi; and two
instances constructed from the same seed produce identical sequences of
any length (determinism of the sequence). -/
theorem C4_generator (sinF : ℚ → ℚ) (r r1 r2 : SeededRandom) (s : ℚ)
    (lo hi : ℤ) (N : ℕ) (hlh : lo ≤ hi)
    (h1 : r1 = ⟨s, 0⟩) (h2 : r2 = ⟨s, 0⟩) :
    ((r.next sinF).2 = ⟨r.seed, r.counter + 1⟩ ∧
      (r.next sinF).1
        = Int.fract (sinF (r.seed * ((r.counter : ℚ) + 1)
            + ((r.counter : ℚ) + 1)) * 10000)) ∧
    (0 ≤ (r.next sinF).1 ∧ (r.next sinF).1 < 1) ∧
    (lo ≤ (r.int sinF lo hi).1 ∧ (r.int sinF lo hi).1 ≤ hi) ∧
    r1.run sinF N = r2.run sinF N := by
  refine ⟨⟨rfl, rfl⟩, ⟨Int.fract_nonneg _, Int.fract_lt_one _⟩, ⟨?_, ?_⟩, ?_⟩
  · show lo ≤ ⌊(r.next sinF).1 * (((hi : ℚ) + 1) - (lo : ℚ)) + (lo : ℚ)⌋
    have hf0 : (0 : ℚ) ≤ (r.next sinF).1 := Int.fract_nonneg _
    have hA : (0 : ℚ) ≤ ((hi : ℚ) + 1) - (lo : ℚ) := by
      have : (lo : ℚ) ≤ (hi : ℚ) := by exact_mod_cast hlh
      linarith
    refine Int.le_floor.mpr ?_
    nlinarith
  · show ⌊(r.next sinF).1 * (((hi : ℚ) + 1) - (lo : ℚ)) + (lo : ℚ)⌋ ≤ hi
    have hf1 : (r.next sinF).1 < 1 := Int.fract_lt_one _
    have hApos : (0 : ℚ) < ((hi : ℚ) + 1) - (lo : ℚ) := by
      have : (lo : ℚ) ≤ (hi : ℚ) := by exact_mod_cast hlh
      linarith
    have hmul : (r.next sinF).1 * (((hi : ℚ) + 1) - (lo : ℚ))
        < 1 * (((hi : ℚ) + 1) - (lo : ℚ)) :=
      mul_lt_mul_of_pos_right hf1 hApos
    have hfl : ⌊(r.next sinF).1 * (((hi : ℚ) + 1) - (lo : ℚ)) + (lo : ℚ)⌋
        < hi + 1 :=
      Int.floor_lt.mpr (by push_cast; linarith)
    omega
  · subst h1; subst h2; rfl

/-- Claim C4 witness: the generator theorem applied at a concrete state,
concrete sin stand-in and the integer range from -2 to 2. -/
theorem C4_witness :
    (-2 : ℤ) ≤ 2 ∧
    (-2 : ℤ) ≤ (SeededRandom.int ⟨1/3, 5⟩ (fun _ => 0) (-2) 2).1 ∧
    (SeededRandom.int ⟨1/3, 5⟩ (fun _ => 0) (-2) 2).1 ≤ 2 ∧
    SeededRandom.run ⟨1/3, 0⟩ (fun _ => 0) 3
      = SeededRandom.run ⟨1/3, 0⟩ (fun _ => 0) 3 := by
  have h := C4_generator (fun _ => 0) ⟨1/3, 5⟩ ⟨1/3, 0⟩ ⟨1/3, 0⟩ (1/3)
    (-2) 2 3 (by decide) rfl rfl
  exact ⟨by decide, h.2.2.1.1, h.2.2.1.2, h.2.2.2⟩

/-- Screen geometry of a device profile. -/
structure ScreenSpec where
  width : ℕ
  height : ℕ
  colorDepth : ℕ
deriving DecidableEq

/-- Hardware class of a device profile. -/
structure HardwareSpec where
  cores : ℕ
  memory : ℕ
deriving DecidableEq

/-- GPU identity of a device profile. -/
structure GpuSpec where
  vendor : String
  renderer : String
deriving DecidableEq

/-- DeviceProfile mirrors one entry of the device-profile catalog. -/
structure DeviceProfile where
  platform : String
  userAgent : String
  screen : ScreenSpec
  hardware : HardwareSpec
  gpu : GpuSpec
  language : List String
deriving DecidableEq

/-- First catalog entry: the Intel office laptop. -/
def profileIntelUHD620 : DeviceProfile :=
  { platform := "Win32"
  , userAgent := "Mozilla/5.0 (Windows NT 10.0; Win64; x64) AppleWebKit/537.36 (KHTML, like Gecko) Chrome/120.0.0.0 Safari/537.36"
  , screen := ⟨1920, 1080, 24⟩
  , hardware := ⟨4, 8⟩
  , gpu := { vendor := "Intel Inc.", renderer := "Intel(R) UHD Graphics 620" }
  , language := ["zh-CN", "zh", "en-US", "en"] }

/-- Second catalog entry: the entry-level gaming laptop. -/
def profileGTX1660Ti : DeviceProfile :=
  { platform := "Win32"
  , userAgent := "Mozilla/5.0 (Windows NT 10.0; Win64; x64) AppleWebKit/537.36 (KHTML, like Gecko) Chrome/131.0.0.0 Safari/537.36"
  , screen := ⟨1920, 1080, 24⟩
  , hardware := ⟨8, 16⟩
  , gpu := { vendor := "NVIDIA Corporation", renderer := "NVIDIA GeForce GTX 1660 Ti" }
  , language := ["zh-CN", "zh", "en-US", "en"] }

/-- Third catalog entry: the high-end gaming laptop. -/
def profileRTX3070 : DeviceProfile :=
  { platform := "Win32"
  , userAgent := "Mozilla/5.0 (Windows NT 10.0; Win64; x64) AppleWebKit/537.36 (KHTML, like Gecko) Chrome/141.0.0.0 Safari/537.36"
  , screen := ⟨2560, 1440, 24⟩
  , hardware := ⟨12, 32⟩
  , gpu := { vendor := "NVIDIA Corporation", renderer := "NVIDIA GeForce RTX 3070" }
  , language := ["zh-CN", "zh", "en-US", "en"] }

/-- Embedding of DEFAULT_DEVICE_PROFILES from the device-profile module. -/
def DEFAULT_DEVICE_PROFILES : List DeviceProfile :=
  [profileIntelUHD620, profileGTX1660Ti, profileRTX3070]

/-- JavaScript array indexing: a negative or out-of-range index yields
undefined, modelled as none. -/
def jsIndex (xs : List α) (i : ℤ) : Option α :=
  if i < 0 then none else xs[i.toNat]?

/-- Embedding of getRandomProfile from the device-profile module.  The
seed parameter is tested for truthiness, so a zero seed falls back to a
Math.random() draw, passed in as rand; the chosen index is reduced with
the JavaScript remainder (truncated division, Int.tmod, matching the sign
of the dividend). -/
def getRandomProfile (profiles : List DeviceProfile) (seed rand : ℚ) :
    Option DeviceProfile :=
  jsIndex profiles
    (Int.tmod
      (if seed = 0 then ⌊rand * (profiles.length : ℚ)⌋
       else ⌊seed * (profiles.length : ℚ)⌋)
      (profiles.length : ℤ))

/-- Embedding of PlaywrightAntiFingerprintPlugin._selectProfile: no
truthiness test on the seed, otherwise the same index arithmetic. -/
def selectProfile (profiles : List DeviceProfile) (sessionSeed : ℚ) :
    Option DeviceProfile :=
  jsIndex profiles
    (Int.tmod ⌊sessionSeed * (profiles.length : ℚ)⌋ (profiles.length : ℤ))

/-- Claim C5 counterexample: at the boundary seed 0 (with the ambient
Math.random() draw equal to 9/10), getRandomProfile over the default
catalog returns the third profile, not the first one that the selection
formula floor(seed * len) mod len prescribes at seed 0: the zero seed is
falsy and is replaced by the random draw, so selection at seed 0 is
neither pure nor the claimed function of the seed. -/
theorem C5_counterexample :
    getRandomProfile DEFAULT_DEVICE_PROFILES 0 (9/10) = some profileRTX3070 ∧
    jsIndex DEFAULT_DEVICE_PROFILES
        (Int.tmod ⌊(0 : ℚ) * ((DEFAULT_DEVICE_PROFILES.length : ℕ) : ℚ)⌋
          ((DEFAULT_DEVICE_PROFILES.length : ℕ) : ℤ))
      = some profileIntelUHD620 ∧
    profileRTX3070 ≠ profileIntelUHD620 := by
  have hlen : DEFAULT_DEVICE_PROFILES.length = 3 := rfl
  refine ⟨?_, ?_, by decide⟩
  · unfold getRandomProfile
    rw [hlen]
    norm_num
    decide
  · rw [hlen]
    norm_num
    decide

/-- Helper: reducing a nonnegative index with the JavaScript remainder by
the length of a nonempty list always lands inside the list. -/
theorem jsIndex_tmod_isSome (xs : List α) (i : ℤ) (hne : xs ≠ [])
    (hi : 0 ≤ i) :
    ∃ p, jsIndex xs (Int.tmod i (xs.length : ℤ)) = some p := by
  have hlen : 0 < (xs.length : ℤ) := by
    exact_mod_cast List.length_pos.mpr hne
  have htm : Int.tmod i (xs.length : ℤ) = i % (xs.length : ℤ) :=
    Int.tmod_eq_emod hi (le_of_lt hlen)
  have h0 : 0 ≤ i % (xs.length : ℤ) := Int.emod_nonneg i (ne_of_gt hlen)
  have h1 : i % (xs.length : ℤ) < (xs.length : ℤ) := Int.emod_lt_of_pos i hlen
  have hnat : (i % (xs.length : ℤ)).toNat < xs.length := by omega
  refine ⟨xs[(i % (xs.length : ℤ)).toNat], ?_⟩
  unfold jsIndex
  rw [htm, if_neg (by omega)]
  exact List.getElem?_eq_getElem hnat

/-- Claim C5 as amended: for every nonzero seed (and any random fallback)
getRandomProfile is exactly the selection formula
catalog[floor(seed * len) mod len]; the plugin method _selectProfile satisfies
the formula for every seed with no zero-seed special case; and for every
nonnegative seed (zero and at-or-above 1 included) both selectors stay in
bounds on a nonempty catalog, provided the zero-seed random fallback draw
is itself nonnegative. -/
theorem C5_amended (catalog : List DeviceProfile) (seed rand : ℚ)
    (hne : catalog ≠ []) (hs : 0 ≤ seed) (hr : 0 ≤ rand) :
    (seed ≠ 0 → getRandomProfile catalog seed rand
        = jsIndex catalog
            (Int.tmod ⌊seed * (catalog.length : ℚ)⌋ (catalog.length : ℤ))) ∧
    selectProfile catalog seed
      = jsIndex catalog
          (Int.tmod ⌊seed * (catalog.length : ℚ)⌋ (catalog.length : ℤ)) ∧
    (∃ p, getRandomProfile catalog seed rand = some p) ∧
    (∃ p, selectProfile catalog seed = some p) := by
  have hfs : 0 ≤ ⌊seed * (catalog.length : ℚ)⌋ :=
    Int.floor_nonneg.mpr (mul_nonneg hs (by positivity))
  have hfr : 0 ≤ ⌊rand * (catalog.length : ℚ)⌋ :=
    Int.floor_nonneg.mpr (mul_nonneg hr (by positivity))
  refine ⟨?_, rfl, ?_, ?_⟩
  · intro h
    unfold getRandomProfile
    rw [if_neg h]
  · by_cases h : seed = 0
    · unfold getRandomProfile
      rw [if_pos h]
      exact jsIndex_tmod_isSome catalog _ hne hfr
    · unfold getRandomProfile
      rw [if_neg h]
      exact jsIndex_tmod_isSome catalog _ hne hfs
  · exact jsIndex_tmod_isSome catalog _ hne hfs

/-- Claim C5 witness: the amended theorem applied to the default catalog
at the concrete seed 21/50. -/
theorem C5_witness :
    DEFAULT_DEVICE_PROFILES ≠ [] ∧ (0 : ℚ) ≤ 21/50 ∧
    getRandomProfile DEFAULT_DEVICE_PROFILES (21/50) 0
      = jsIndex DEFAULT_DEVICE_PROFILES
          (Int.tmod ⌊(21/50 : ℚ) * ((DEFAULT_DEVICE_PROFILES.length : ℕ) : ℚ)⌋
            ((DEFAULT_DEVICE_PROFILES.length : ℕ) : ℤ)) ∧
    (∃ p, selectProfile DEFAULT_DEVICE_PROFILES (21/50) = some p) := by
  have h := C5_amended DEFAULT_DEVICE_PROFILES (21/50) 0
    (by simp [DEFAULT_DEVICE_PROFILES]) (by norm_num) (by norm_num)
  exact ⟨by simp [DEFAULT_DEVICE_PROFILES], by norm_num,
    h.1 (by norm_num), h.2.2.2⟩

/-- Pixel models one RGBA pixel of an ImageData buffer; channel values
are modelled as rationals (the Uint8ClampedArray quantization applied on
store-back is outside the arithmetic the claims are about). -/
structure Pixel where
  r : ℚ
  g : ℚ
  b : ℚ
  a : ℚ
deriving DecidableEq

/-- Embedding of Math.min(255, Math.max(0, v)). -/
def clamp255 (v : ℚ) : ℚ := min 255 (max 0 v)

/-- Embedding of injectNoise from the canvas protection module: walk the
pixels; for every pixel whose alpha is positive draw ONE sample
float(-0.5, 0.5) from the canvas stream and add that same sample to the
red, green and blue channels, each clamped to the byte range; leave fully
transparent pixels alone. -/
def injectNoise (sinF : ℚ → ℚ) : List Pixel → SeededRandom → List Pixel × SeededRandom
  | [], r => ([], r)
  | px :: rest, r =>
    if 0 < px.a then
      (⟨clamp255 (px.r + (r.float sinF (-(1/2)) (1/2)).1),
        clamp255 (px.g + (r.float sinF (-(1/2)) (1/2)).1),
        clamp255 (px.b + (r.float sinF (-(1/2)) (1/2)).1), px.a⟩
          :: (injectNoise sinF rest (r.float sinF (-(1/2)) (1/2)).2).1,
       (injectNoise sinF rest (r.float sinF (-(1/2)) (1/2)).2).2)
    else
      (px :: (injectNoise sinF rest r).1, (injectNoise sinF rest r).2)

/-- Modelled from the spec wording of claim C6, for comparison with the
source: R, G and B of an opaque pixel each perturbed by an INDEPENDENT
noise value drawn per channel, i.e. three successive draws of the canvas
stream per opaque pixel. -/
def injectNoisePerChannel (sinF : ℚ → ℚ) :
    List Pixel → SeededRandom → List Pixel × SeededRandom
  | [], r => ([], r)
  | px :: rest, r =>
    if 0 < px.a then
      (⟨clamp255 (px.r + (r.float sinF (-(1/2)) (1/2)).1),
        clamp255 (px.g
          + (((r.float sinF (-(1/2)) (1/2)).2).float sinF (-(1/2)) (1/2)).1),
        clamp255 (px.b
          + (((((r.float sinF (-(1/2)) (1/2)).2).float sinF
                (-(1/2)) (1/2)).2).float sinF (-(1/2)) (1/2)).1), px.a⟩
          :: (injectNoisePerChannel sinF rest
            (((((r.float sinF (-(1/2)) (1/2)).2).float sinF
                (-(1/2)) (1/2)).2).float sinF (-(1/2)) (1/2)).2).1,
       (injectNoisePerChannel sinF rest
         (((((r.float sinF (-(1/2)) (1/2)).2).float sinF
             (-(1/2)) (1/2)).2).float sinF (-(1/2)) (1/2)).2).2)
    else
      (px :: (injectNoisePerChannel sinF rest r).1,
       (injectNoisePerChannel sinF rest r).2)

/-- Helper: the canvas noise draw float(-0.5, 0.5) lies in the interval
from -1/2 inclusive to 1/2 exclusive. -/
theorem float_half_bounds (r : SeededRandom) (sinF : ℚ → ℚ) :
    -(1/2) ≤ (r.float sinF (-(1/2)) (1/2)).1 ∧
    (r.float sinF (-(1/2)) (1/2)).1 < 1/2 := by
  have h0 : (0 : ℚ) ≤ (r.next sinF).1 := Int.fract_nonneg _
  have h1 : (r.next sinF).1 < 1 := Int.fract_lt_one _
  unfold SeededRandom.float
  constructor <;> simp <;> linarith

/-- Helper: the clamped perturbation of an in-range channel stays within
1/2 of the original channel value. -/
theorem clamp255_close (c n : ℚ) (hc0 : 0 ≤ c) (hc255 : c ≤ 255)
    (hn0 : -(1/2) ≤ n) (hn1 : n < 1/2) : |clamp255 (c + n) - c| ≤ 1/2 := by
  unfold clamp255
  rw [abs_le]
  constructor <;> (simp only [min_def, max_def]; split_ifs <;> linarith)

/-- Helper: injectNoise preserves the seed and advances the canvas
stream counter by exactly the number of pixels with positive alpha. -/
theorem injectNoise_state (sinF : ℚ → ℚ) (img : List Pixel)
    (r : SeededRandom) :
    (injectNoise sinF img r).2
      = ⟨r.seed, r.counter + img.countP (fun px => decide (0 < px.a))⟩ := by
  induction img generalizing r with
  | nil => simp [injectNoise, List.countP_nil]
  | cons px rest ih =>
    by_cases hpa : 0 < px.a
    · simp only [injectNoise, if_pos hpa]
      rw [ih]
      simp [List.countP_cons, hpa, SeededRandom.float, SeededRandom.next]
      omega
    · simp only [injectNoise, if_neg hpa]
      rw [ih]
      simp [List.countP_cons, hpa]

/-- Helper: injectNoise preserves the pixel count. -/
theorem injectNoise_length (sinF : ℚ → ℚ) (img : List Pixel)
    (r : SeededRandom) :
    (injectNoise sinF img r).1.length = img.length := by
  induction img generalizing r with
  | nil => rfl
  | cons px rest ih =>
    by_cases hpa : 0 < px.a
    · simp only [injectNoise, if_pos hpa, List.length_cons, ih]
    · simp only [injectNoise, if_neg hpa, List.length_cons, ih]

/-- Helper: a pixel with nonpositive alpha passes through injectNoise
unchanged, at its original position. -/
theorem injectNoise_transparent (sinF : ℚ → ℚ) (img : List Pixel)
    (r : SeededRandom) (i : ℕ) (px : Pixel) (hi : img[i]? = some px)
    (ha : ¬ 0 < px.a) :
    (injectNoise sinF img r).1[i]? = some px := by
  induction img generalizing r i with
  | nil => simp at hi
  | cons q rest ih =>
    by_cases hq : 0 < q.a
    · simp only [injectNoise, if_pos hq]
      cases i with
      | zero =>
        simp at hi
        rw [hi] at hq
        exact absurd hq ha
      | succ j =>
        simp only [List.getElem?_cons_succ] at hi
        simpa using ih _ j hi
    · simp only [injectNoise, if_neg hq]
      cases i with
      | zero => simpa using hi
      | succ j =>
        simp only [List.getElem?_cons_succ] at hi
        simpa using ih _ j hi

/-- Helper: a pixel with positive alpha comes out of injectNoise with one
single noise value, bounded by 1/2 in magnitude, added to all three of
its color channels (clamped); the alpha channel is untouched. -/
theorem injectNoise_posAlpha (sinF : ℚ → ℚ) (img : List Pixel)
    (r : SeededRandom) (i : ℕ) (px : Pixel) (hi : img[i]? = some px)
    (ha : 0 < px.a) :
    ∃ noise, -(1/2) ≤ noise ∧ noise < 1/2 ∧
      (injectNoise sinF img r).1[i]?
        = some ⟨clamp255 (px.r + noise), clamp255 (px.g + noise),
                clamp255 (px.b + noise), px.a⟩ := by
  induction img generalizing r i with
  | nil => simp at hi
  | cons q rest ih =>
    by_cases hq : 0 < q.a
    · simp only [injectNoise, if_pos hq]
      cases i with
      | zero =>
        simp at hi
        subst hi
        exact ⟨(r.float sinF (-(1/2)) (1/2)).1, (float_half_bounds r sinF).1,
          (float_half_bounds r sinF).2, by simp⟩
      | succ j =>
        simp only [List.getElem?_cons_succ] at hi
        obtain ⟨noise, hn0, hn1, hout⟩ := ih _ j hi
        exact ⟨noise, hn0, hn1, by simpa using hout⟩
    · simp only [injectNoise, if_neg hq]
      cases i with
      | zero =>
        simp at hi
        rw [hi] at hq
        exact absurd ha hq
      | succ j =>
        simp only [List.getElem?_cons_succ] at hi
        obtain ⟨noise, hn0, hn1, hout⟩ := ih _ j hi
        exact ⟨noise, hn0, hn1, by simpa using hout⟩

/-- Claim C6 counterexample: on a single opaque pixel (with a concrete
sin stand-in making the draw computable) the injectNoise of the source draws
ONE sample and adds the same offset -1/4 to R, G and B — the three
channel deltas are identical and only one draw is consumed (counter 1),
whereas noise drawn independently per channel as the claim states would
consume three draws (counter 3). -/
theorem C6_counterexample :
    injectNoise (fun _ => 1/40000) [⟨100, 150, 200, 255⟩] ⟨1, 0⟩
      = ([⟨399/4, 599/4, 799/4, 255⟩], ⟨1, 1⟩) ∧
    ((399 : ℚ)/4 - 100 = 599/4 - 150 ∧ (599 : ℚ)/4 - 150 = 799/4 - 200) ∧
    (injectNoise (fun _ => 1/40000) [⟨100, 150, 200, 255⟩] ⟨1, 0⟩).2.counter
      = 1 ∧
    (injectNoisePerChannel (fun _ => 1/40000)
        [⟨100, 150, 200, 255⟩] ⟨1, 0⟩).2.counter = 3 ∧
    (1 : ℕ) ≠ 3 := by
  have hfl1 : (⟨(1 : ℚ), 0⟩ : SeededRandom).float (fun _ => 1/40000)
      (-(1/2)) (1/2) = (-(1/4), ⟨1, 1⟩) := by
    unfold SeededRandom.float SeededRandom.next
    norm_num [Int.fract]
  have hfl2 : (⟨(1 : ℚ), 1⟩ : SeededRandom).float (fun _ => 1/40000)
      (-(1/2)) (1/2) = (-(1/4), ⟨1, 2⟩) := by
    unfold SeededRandom.float SeededRandom.next
    norm_num [Int.fract]
  have hfl3 : (⟨(1 : ℚ), 2⟩ : SeededRandom).float (fun _ => 1/40000)
      (-(1/2)) (1/2) = (-(1/4), ⟨1, 3⟩) := by
    unfold SeededRandom.float SeededRandom.next
    norm_num [Int.fract]
  have hmain : injectNoise (fun _ => 1/40000) [⟨100, 150, 200, 255⟩] ⟨1, 0⟩
      = ([⟨399/4, 599/4, 799/4, 255⟩], ⟨1, 1⟩) := by
    simp only [injectNoise, hfl1]
    norm_num [clamp255, min_def, max_def]
  have hpc : injectNoisePerChannel (fun _ => 1/40000)
      [⟨100, 150, 200, 255⟩] ⟨1, 0⟩
      = ([⟨399/4, 599/4, 799/4, 255⟩], ⟨1, 3⟩) := by
    simp only [injectNoisePerChannel, hfl1, hfl2, hfl3]
    norm_num [clamp255, min_def, max_def]
  refine ⟨hmain, ⟨by norm_num, by norm_num⟩, ?_, ?_, by decide⟩
  · rw [hmain]
  · rw [hpc]

/-- Claim C6 as amended: injectNoise keeps the pixel count, advances the
canvas stream counter by exactly one draw per positive-alpha pixel (so a
second export of the same image draws fresh samples at later counter
positions), leaves zero-alpha pixels untouched, and perturbs each
positive-alpha pixel by a SINGLE per-pixel noise value in the interval
from -1/2 inclusive to 1/2 exclusive added to R, G and B alike, each
channel clamped to the byte range; for in-range channels the clamped
result stays within 1/2 of the source value. -/
theorem C6_amended (sinF : ℚ → ℚ) (img : List Pixel) (r : SeededRandom) :
    (injectNoise sinF img r).1.length = img.length ∧
    (injectNoise sinF img r).2
      = ⟨r.seed, r.counter + img.countP (fun px => decide (0 < px.a))⟩ ∧
    (∀ (i : ℕ) (px : Pixel), img[i]? = some px → ¬ 0 < px.a →
      (injectNoise sinF img r).1[i]? = some px) ∧
    (∀ (i : ℕ) (px : Pixel), img[i]? = some px → 0 < px.a →
      ∃ noise : ℚ, -(1/2) ≤ noise ∧ noise < 1/2 ∧
        (injectNoise sinF img r).1[i]?
          = some ⟨clamp255 (px.r + noise), clamp255 (px.g + noise),
                  clamp255 (px.b + noise), px.a⟩) ∧
    (∀ c noise : ℚ, 0 ≤ c → c ≤ 255 → -(1/2) ≤ noise → noise < 1/2 →
      |clamp255 (c + noise) - c| ≤ 1/2) := by
  refine ⟨injectNoise_length sinF img r, injectNoise_state sinF img r,
    ?_, ?_, ?_⟩
  · exact fun i px hi ha => injectNoise_transparent sinF img r i px hi ha
  · exact fun i px hi ha => injectNoise_posAlpha sinF img r i px hi ha
  · exact fun c noise h1 h2 h3 h4 => clamp255_close c noise h1 h2 h3 h4

/-- Claim C6 witness: the amended theorem applied to a two-pixel image
whose first pixel is transparent and second pixel opaque. -/
theorem C6_witness :
    (injectNoise (fun _ => 1/40000)
        [⟨10, 20, 30, 0⟩, ⟨100, 150, 200, 255⟩] ⟨1, 0⟩).1[0]?
      = some ⟨10, 20, 30, 0⟩ ∧
    (∃ noise : ℚ, -(1/2) ≤ noise ∧ noise < 1/2 ∧
      (injectNoise (fun _ => 1/40000)
          [⟨10, 20, 30, 0⟩, ⟨100, 150, 200, 255⟩] ⟨1, 0⟩).1[1]?
        = some ⟨clamp255 (100 + noise), clamp255 (150 + noise),
                clamp255 (200 + noise), 255⟩) := by
  have h := C6_amended (fun _ => 1/40000)
    [⟨10, 20, 30, 0⟩, ⟨100, 150, 200, 255⟩] ⟨1, 0⟩
  refine ⟨h.2.2.1 0 ⟨10, 20, 30, 0⟩ rfl (by norm_num), ?_⟩
  exact h.2.2.2.1 1 ⟨100, 150, 200, 255⟩ rfl (by norm_num)

/-- CanvasState models a canvas element: its current pixel content and
the canvas stream state captured by the protectCanvas closure. -/
structure CanvasState where
  image : List Pixel
  rng : SeededRandom
deriving DecidableEq

/-- Embedding of the wrapped HTMLCanvasElement.prototype.toDataURL: read
the pixels through the ORIGINAL getImageData, noise them, write the
noised pixels back into the canvas with the original putImageData, then
export; the export therefore shows the written-back noised pixels, and
the canvas keeps them.  The encoded data URL is represented by the pixel
content it encodes. -/
def toDataURL (sinF : ℚ → ℚ) (c : CanvasState) : List Pixel × CanvasState :=
  ((injectNoise sinF c.image c.rng).1,
   ⟨(injectNoise sinF c.image c.rng).1, (injectNoise sinF c.image c.rng).2⟩)

/-- Embedding of the wrapped toBlob: identical noise-and-write-back
before delegating to the original toBlob. -/
def toBlob (sinF : ℚ → ℚ) (c : CanvasState) : List Pixel × CanvasState :=
  ((injectNoise sinF c.image c.rng).1,
   ⟨(injectNoise sinF c.image c.rng).1, (injectNoise sinF c.image c.rng).2⟩)

/-- Embedding of the wrapped CanvasRenderingContext2D.prototype
getImageData: noise only the returned copy; the canvas itself keeps its
pixels (no putImageData here), though the stream still advances. -/
def getImageData (sinF : ℚ → ℚ) (c : CanvasState) : List Pixel × CanvasState :=
  ((injectNoise sinF c.image c.rng).1,
   ⟨c.image, (injectNoise sinF c.image c.rng).2⟩)

/-- Claim C9: the wrapped toDataURL and toBlob write the noised pixels
back into the canvas (the canvas content after an export IS the noised
image, unlike getImageData which leaves the canvas untouched); a second
export noises the already-noised content, so noise accumulates; and a
getImageData after an export observes the written-back export noise
plus its own fresh noise. -/
theorem C9_export_mutates (sinF : ℚ → ℚ) (c : CanvasState) :
    (toDataURL sinF c).2.image = (injectNoise sinF c.image c.rng).1 ∧
    (toBlob sinF c).2.image = (injectNoise sinF c.image c.rng).1 ∧
    (getImageData sinF c).2.image = c.image ∧
    (toDataURL sinF (toDataURL sinF c).2).1
      = (injectNoise sinF (injectNoise sinF c.image c.rng).1
          (injectNoise sinF c.image c.rng).2).1 ∧
    (getImageData sinF (toDataURL sinF c).2).1
      = (injectNoise sinF (injectNoise sinF c.image c.rng).1
          (injectNoise sinF c.image c.rng).2).1 :=
  ⟨rfl, rfl, rfl, rfl, rfl⟩

/-- Claim C9 witness: the mutation equations at a concrete one-pixel
canvas and concrete sin stand-in. -/
theorem C9_witness :
    (toDataURL (fun _ => 1/40000) ⟨[⟨100, 150, 200, 255⟩], ⟨1, 0⟩⟩).2.image
      = (injectNoise (fun _ => 1/40000) [⟨100, 150, 200, 255⟩] ⟨1, 0⟩).1 ∧
    (getImageData (fun _ => 1/40000) ⟨[⟨100, 150, 200, 255⟩], ⟨1, 0⟩⟩).2.image
      = [⟨100, 150, 200, 255⟩] := by
  have h := C9_export_mutates (fun _ => 1/40000) ⟨[⟨100, 150, 200, 255⟩], ⟨1, 0⟩⟩
  exact ⟨h.1, h.2.2.1⟩

/-- Consume exactly n decimal digits from the character list, or fail. -/
def dropDigits : ℕ → List Char → Option (List Char)
  | 0, s => some s
  | _ + 1, [] => none
  | n + 1, c :: s => if c.isDigit then dropDigits n s else none

/-- Remainders after the greedy quantifier [0-9]\x7b1,3\x7d, in
JavaScript backtracking preference order: three digits first, then two,
then one. -/
def digitAlts (s : List Char) : List (List Char) :=
  [3, 2, 1].filterMap (fun n => dropDigits n s)

/-- One repetition of the group as the SOURCE regex literal spells it:
inside a regex literal the two characters backslash backslash are an
escape for one literal backslash, and the following dot matches any
character, so the group is one-to-three digits, then a literal backslash,
then any one character. -/
def unitStepJs (s : List Char) : List (List Char) :=
  (digitAlts s).filterMap (fun t =>
    match t with
    | b :: _ :: rest => if b = '\\' then some rest else none
    | _ => none)

/-- Modelled from the spec wording: the intended IPv4 group, one-to-three
digits followed by a literal dot. -/
def unitStepSpec (s : List Char) : List (List Char) :=
  (digitAlts s).filterMap (fun t =>
    match t with
    | c :: rest => if c = '.' then some rest else none
    | _ => none)

/-- Remainders of a full match of the source pattern (group three times,
then one-to-three digits) starting at the head of s. -/
def ipAltsJs (s : List Char) : List (List Char) :=
  (((unitStepJs s).flatMap unitStepJs).flatMap unitStepJs).flatMap digitAlts

/-- Remainders of a full match of the spec-intended dotted-IPv4 pattern
starting at the head of s. -/
def ipAltsSpec (s : List Char) : List (List Char) :=
  (((unitStepSpec s).flatMap unitStepSpec).flatMap unitStepSpec).flatMap
    digitAlts

/-- Length of the preferred match of the source pattern at the head of s,
if any. -/
def ipMatchJs (s : List Char) : Option ℕ :=
  (ipAltsJs s).head?.map (fun rem => s.length - rem.length)

/-- Length of the preferred match of the spec-intended pattern at the
head of s, if any. -/
def ipMatchSpec (s : List Char) : Option ℕ :=
  (ipAltsSpec s).head?.map (fun rem => s.length - rem.length)

/-- String.prototype.replace with a global regex: scan left to right; at
a match, emit the replacement and resume after the matched span;
otherwise copy one character.  The fuel argument (instantiated with the
string length) only bounds the recursion. -/
def replaceScan (matchLen : List Char → Option ℕ) (repl : List Char) :
    ℕ → List Char → List Char
  | 0, s => s
  | _ + 1, [] => []
  | fuel + 1, c :: s =>
    match matchLen (c :: s) with
    | some L => repl ++ replaceScan matchLen repl fuel (List.drop L (c :: s))
    | none => c :: replaceScan matchLen repl fuel s

/-- Embedding of candidate.candidate.replace(ipRegex, epsilon) with the
regex literal as written in the source. -/
def jsReplaceIp (s : String) : String :=
  String.mk (replaceScan ipMatchJs ("10.0.0.1").data s.data.length s.data)

/-- Modelled from the spec: the same replacement with the intended
dotted-IPv4 pattern. -/
def specReplaceIp (s : String) : String :=
  String.mk (replaceScan ipMatchSpec ("10.0.0.1").data s.data.length s.data)

/-- IceCandidate models the argument of addIceCandidate: an object whose
candidate field may be absent (none) or hold the SDP candidate string. -/
structure IceCandidate where
  candidate : Option String
deriving DecidableEq

/-- Embedding of the wrapped addIceCandidate of the WebRTC protection:
a missing candidate object or a missing/empty (falsy) candidate string is
passed to the original addIceCandidate unchanged; otherwise a copy with
the regex replacement applied to the candidate string is passed on.  The
value handed to the original call is returned. -/
def addIceCandidate (c : Option IceCandidate) : Option IceCandidate :=
  match c with
  | none => none
  | some cand =>
    match cand.candidate with
    | none => some cand
    | some s =>
      if s = "" then some cand
      else some ⟨some (jsReplaceIp s)⟩

/-- Embedding of the iceServers handling of the wrapping constructor: a
present (truthy) iceServers array is replaced by the empty array, an
absent one is left untouched. -/
def sanitizeIceServers (iceServers : Option (List String)) :
    Option (List String) :=
  match iceServers with
  | none => none
  | some _ => some []

/-- Concrete ICE candidate string carrying a private IPv4 address. -/
def sampleCandidate : String :=
  "candidate:1 1 udp 2122 192.168.1.7 54321 typ host"

/-- Claim C7 evaluation at the failing input: the wrapped addIceCandidate
leaves the IPv4 address 192.168.1.7 in the candidate string untouched,
because the regex literal spells a doubled backslash and therefore only
matches digit runs separated by literal backslashes, which never occur in
a dotted address; the spec-intended dotted pattern would have rewritten
the address to 10.0.0.1.  The configured iceServers list is indeed
emptied and candidates without a candidate string pass through
unchanged. -/
theorem C7_code_eval :
    addIceCandidate (some ⟨some sampleCandidate⟩)
      = some ⟨some sampleCandidate⟩ ∧
    jsReplaceIp sampleCandidate = sampleCandidate ∧
    specReplaceIp sampleCandidate
      = "candidate:1 1 udp 2122 10.0.0.1 54321 typ host" ∧
    sampleCandidate ≠ "candidate:1 1 udp 2122 10.0.0.1 54321 typ host" ∧
    sanitizeIceServers (some ["stun:stun.example.org"]) = some [] ∧
    addIceCandidate none = none ∧
    addIceCandidate (some ⟨none⟩) = some ⟨none⟩ := by
  refine ⟨?_, by decide, by decide, by decide, rfl, rfl, rfl⟩
  show (if sampleCandidate = "" then some (⟨some sampleCandidate⟩ : IceCandidate)
    else some ⟨some (jsReplaceIp sampleCandidate)⟩) = some ⟨some sampleCandidate⟩
  rw [if_neg (by decide)]
  have h : jsReplaceIp sampleCandidate = sampleCandidate := by decide
  rw [h]

/-- GLValue models the values the wrapped getParameter can return:
numbers, strings, plain or typed numeric arrays, and boolean arrays. -/
inductive GLValue where
  | num : ℤ → GLValue
  | str : String → GLValue
  | numArr : List ℤ → GLValue
  | ratArr : List ℚ → GLValue
  | boolArr : List Bool → GLValue
deriving DecidableEq

/-- Embedding of the gpuInfo object built at install time: the selected
GPU vendor of the profile verbatim, and the renderer wrapped in the fixed
ANGLE template. -/
structure GpuInfo where
  vendor : String
  renderer : String
deriving DecidableEq

/-- Construction of gpuInfo from the selected profile. -/
def gpuInfoOf (p : DeviceProfile) : GpuInfo :=
  ⟨p.gpu.vendor, "ANGLE (" ++ p.gpu.renderer ++ " Direct3D11 vs_5_0 ps_5_0)"⟩

/-- Embedding of the standardParams table of the WebGL protection, built
once at install time.  The three jittered capability entries (34016,
34024, 34076) consume the first three int draws of the WebGL stream in
source order; the stream state after the build is returned alongside. -/
def buildStandardParams (sinF : ℚ → ℚ) (r0 : SeededRandom) :
    List (ℤ × GLValue) × SeededRandom :=
  ([(2849, .num 1), (2884, .num 1), (2885, .num 2305), (2886, .num 1),
    (2928, .numArr [0, 1]), (2929, .num 1), (2930, .num 1),
    (2931, .num 2929), (2932, .num 513), (2960, .num 0),
    (2961, .numArr [0, 0, 300, 300]), (2962, .num 1), (2963, .num 519),
    (2964, .num 7680), (2965, .num 7680), (2966, .num 7680),
    (2967, .num 0), (2968, .num 1), (3024, .num 1), (3042, .num 0),
    (3088, .numArr [0, 0, 300, 300]), (3106, .ratArr [1, 1, 1, 1]),
    (3107, .boolArr [true, true, true, true]), (7936, .str "WebKit"),
    (7937, .str "WebKit WebGL"),
    (7938, .str "WebGL 1.0 (OpenGL ES 2.0 Chromium)"),
    (32773, .str "WebGL GLSL ES 1.0 (OpenGL ES GLSL ES 1.0 Chromium)"),
    (32777, .num 32883), (33170, .num 4352), (33901, .numArr [1, 1]),
    (33902, .numArr [1, 255]),
    (34016, .num (32 + (r0.int sinF (-2) 2).1)),
    (34024, .num (16384 + ((r0.int sinF (-2) 2).2.int sinF (-512) 512).1)),
    (34076, .num (16384
      + (((r0.int sinF (-2) 2).2.int sinF (-512) 512).2.int sinF
          (-512) 512).1)),
    (34467, .num 16), (34816, .num 16), (34817, .num 16), (34818, .num 32),
    (34819, .num 4096), (34877, .num 4096), (34921, .num 16),
    (34930, .num 16384), (35660, .num 16), (35661, .num 32768),
    (35724, .str "WebGL 1.0"), (35738, .str "WebKit"),
    (35739, .str "WebKit WebGL"), (36347, .num 4096), (36348, .num 4096),
    (36349, .ratArr [16384, 16384]), (37440, .num 16), (37441, .num 16),
    (37443, .num 2)],
   (((r0.int sinF (-2) 2).2.int sinF (-512) 512).2.int sinF (-512) 512).2)

/-- Property lookup on the table, embedding hasOwnProperty followed by
the member read. -/
def lookupParam (table : List (ℤ × GLValue)) (p : ℤ) : Option GLValue :=
  (table.find? (fun e => e.1 == p)).map (fun e => e.2)

/-- Embedding of the wrapped getParameter: the two debug-renderer-info
identity queries (UNMASKED_VENDOR_WEBGL is 37445, UNMASKED_RENDERER_WEBGL
is 37446; they answer when the extension is available) return the install
time gpuInfo strings; then the standardParams table; then the original
getParameter.  The body draws nothing from the WebGL stream. -/
def wrappedGetParameter (gpu : GpuInfo) (table : List (ℤ × GLValue))
    (origGet : ℤ → GLValue) (dbg : Bool) (p : ℤ) : GLValue :=
  if dbg = true ∧ p = 37445 then .str gpu.vendor
  else if dbg = true ∧ p = 37446 then .str gpu.renderer
  else
    match lookupParam table p with
    | some v => v
    | none => origGet p

/-- The wrapped getParameter with the WebGL stream state threaded
through; the body consumes no draw, so the state passes through
unchanged. -/
def getParameterS (gpu : GpuInfo) (table : List (ℤ × GLValue))
    (origGet : ℤ → GLValue) (dbg : Bool) (p : ℤ) (st : SeededRandom) :
    GLValue × SeededRandom :=
  (wrappedGetParameter gpu table origGet dbg p, st)

/-- Repeated queries of one parameter, collecting the answers and
threading the stream state. -/
def queryRepeat (gpu : GpuInfo) (table : List (ℤ × GLValue))
    (origGet : ℤ → GLValue) (dbg : Bool) (p : ℤ) :
    ℕ → SeededRandom → List GLValue × SeededRandom
  | 0, st => ([], st)
  | n + 1, st =>
    ((getParameterS gpu table origGet dbg p st).1
        :: (queryRepeat gpu table origGet dbg p n
            (getParameterS gpu table origGet dbg p st).2).1,
     (queryRepeat gpu table origGet dbg p n
       (getParameterS gpu table origGet dbg p st).2).2)

/-- Embedding of the navigator.hardwareConcurrency getter override. -/
def hardwareConcurrencyGetter (profile : DeviceProfile) : ℕ :=
  profile.hardware.cores

/-- Embedding of the navigator.deviceMemory getter override (installed
when deviceMemory exists on navigator). -/
def deviceMemoryGetter (profile : DeviceProfile) : ℕ :=
  profile.hardware.memory

/-- Helper: repeated queries all return the single value the wrapped
getParameter computes, and leave the stream state untouched. -/
theorem queryRepeat_const (gpu : GpuInfo) (table : List (ℤ × GLValue))
    (origGet : ℤ → GLValue) (dbg : Bool) (p : ℤ) (n : ℕ)
    (st : SeededRandom) :
    queryRepeat gpu table origGet dbg p n st
      = (List.replicate n (wrappedGetParameter gpu table origGet dbg p),
         st) := by
  induction n generalizing st with
  | zero => rfl
  | succ m ih => simp [queryRepeat, getParameterS, ih, List.replicate_succ]

/-- Claim C8: with session seed 0.42 and the RTX 3070 profile selected,
the wrapped getParameter answers the unmasked-vendor query with exactly
the string NVIDIA Corporation and the unmasked-renderer query with the
ANGLE renderer string containing NVIDIA GeForce RTX 3070; any number of
repeated queries returns the identical strings and consumes no draw of
the WebGL stream; hardwareConcurrency reports 12 and deviceMemory 32. -/
theorem C8_identity (sinF : ℚ → ℚ) (origGet : ℤ → GLValue) (n : ℕ)
    (st : SeededRandom) :
    wrappedGetParameter (gpuInfoOf profileRTX3070)
        (buildStandardParams sinF ⟨(21/50) * 3, 0⟩).1 origGet true 37445
      = .str "NVIDIA Corporation" ∧
    wrappedGetParameter (gpuInfoOf profileRTX3070)
        (buildStandardParams sinF ⟨(21/50) * 3, 0⟩).1 origGet true 37446
      = .str "ANGLE (NVIDIA GeForce RTX 3070 Direct3D11 vs_5_0 ps_5_0)" ∧
    (∃ pre post : String,
      "ANGLE (NVIDIA GeForce RTX 3070 Direct3D11 vs_5_0 ps_5_0)"
        = pre ++ "NVIDIA GeForce RTX 3070" ++ post) ∧
    queryRepeat (gpuInfoOf profileRTX3070)
        (buildStandardParams sinF ⟨(21/50) * 3, 0⟩).1 origGet true 37445 n st
      = (List.replicate n (GLValue.str "NVIDIA Corporation"), st) ∧
    hardwareConcurrencyGetter profileRTX3070 = 12 ∧
    deviceMemoryGetter profileRTX3070 = 32 := by
  have hv : wrappedGetParameter (gpuInfoOf profileRTX3070)
      (buildStandardParams sinF ⟨(21/50) * 3, 0⟩).1 origGet true 37445
      = .str "NVIDIA Corporation" := by
    unfold wrappedGetParameter
    rw [if_pos ⟨rfl, rfl⟩]
    rfl
  refine ⟨hv, ?_, ⟨"ANGLE (", " Direct3D11 vs_5_0 ps_5_0)", by decide⟩,
    ?_, rfl, rfl⟩
  · unfold wrappedGetParameter
    rw [if_neg (by simp), if_pos ⟨rfl, rfl⟩]
    rfl
  · rw [queryRepeat_const, hv]

/-- Claim C8 witness: the identity theorem applied with a concrete sin
stand-in, a concrete original getParameter, three repeated queries and a
concrete stream state. -/
theorem C8_witness :
    wrappedGetParameter (gpuInfoOf profileRTX3070)
        (buildStandardParams (fun _ => 0) ⟨(21/50) * 3, 0⟩).1
        (fun _ => .num 0) true 37445
      = .str "NVIDIA Corporation" ∧
    queryRepeat (gpuInfoOf profileRTX3070)
        (buildStandardParams (fun _ => 0) ⟨(21/50) * 3, 0⟩).1
        (fun _ => .num 0) true 37445 3 ⟨(21/50) * 3, 3⟩
      = (List.replicate 3 (GLValue.str "NVIDIA Corporation"),
         ⟨(21/50) * 3, 3⟩) := by
  have h := C8_identity (fun _ => 0) (fun _ => .num 0) 3 ⟨(21/50) * 3, 3⟩
  exact ⟨h.1, h.2.2.2.1⟩

/-- MathRandomState: the state of MathSeededRandom, the generator owned
by the math interceptor (seeded with sessionSeed * 7). -/
structure MathRandomState where
  seed : ℚ
  counter : ℕ
deriving DecidableEq

/-- Embedding of MathSeededRandom.next: the same arithmetic as
SeededRandom.next but computed through the SAVED originalSin (sinF
directly), which is what avoids a feedback loop through the wrapper. -/
def mathNext (sinF : ℚ → ℚ) (m : MathRandomState) : ℚ × MathRandomState :=
  (Int.fract (sinF (m.seed * ((m.counter : ℚ) + 1)
      + ((m.counter : ℚ) + 1)) * 10000),
   ⟨m.seed, m.counter + 1⟩)

/-- Embedding of MathSeededRandom.float. -/
def mathFloat (sinF : ℚ → ℚ) (m : MathRandomState) (lo hi : ℚ) :
    ℚ × MathRandomState :=
  ((mathNext sinF m).1 * (hi - lo) + lo, (mathNext sinF m).2)

/-- Embedding of the wrapped Math.sin the math interceptor installs on
the page-global Math object: the true sine plus a perturbation
float(-1e-15, 1e-15) drawn from the math stream; every call advances the
math stream counter. -/
def wrappedSin (sinF : ℚ → ℚ) (x : ℚ) (m : MathRandomState) :
    ℚ × MathRandomState :=
  (sinF x + (mathFloat sinF m (-(1/10^15)) (1/10^15)).1,
   (mathFloat sinF m (-(1/10^15)) (1/10^15)).2)

/-- SeededRandom.next as it executes AFTER the math interceptor is
installed: the class body looks Math.sin up on the global Math object at
call time, so every non-math derived stream (canvas, WebGL, audio, ...)
now computes through wrappedSin, and its output depends on the math
stream state as well as its own. -/
def nextGlobal (sinF : ℚ → ℚ) (r : SeededRandom) (m : MathRandomState) :
    ℚ × SeededRandom × MathRandomState :=
  (Int.fract ((wrappedSin sinF (r.seed * ((r.counter : ℚ) + 1)
      + ((r.counter : ℚ) + 1)) m).1 * 10000),
   ⟨r.seed, r.counter + 1⟩,
   (wrappedSin sinF (r.seed * ((r.counter : ℚ) + 1)
     + ((r.counter : ℚ) + 1)) m).2)

/-- Claim C10: after the math interceptor is installed, a draw of a
non-math stream advances the math stream counter by one alongside its own
counter (its output is a function of both states); the generator
of the math stream itself computes directly through the saved original sine and advances
only itself; and concretely, two runs that are identical except for one
extra page-level call to the wrapped Math.sin between two canvas-stream
draws produce different canvas noise values for the very same canvas
stream state. -/
theorem C10_math_coupling (sinF : ℚ → ℚ) (r : SeededRandom)
    (m : MathRandomState) :
    (nextGlobal sinF r m).2.2.counter = m.counter + 1 ∧
    (nextGlobal sinF r m).2.1 = ⟨r.seed, r.counter + 1⟩ ∧
    (mathNext sinF m).2 = ⟨m.seed, m.counter + 1⟩ ∧
    (mathNext sinF m).1
      = Int.fract (sinF (m.seed * ((m.counter : ℚ) + 1)
          + ((m.counter : ℚ) + 1)) * 10000) ∧
    (nextGlobal (fun q => q / 10000) ⟨2/3, 0⟩ ⟨7/3, 0⟩).1
      ≠ (nextGlobal (fun q => q / 10000) ⟨2/3, 0⟩
          (wrappedSin (fun q => q / 10000) 0 ⟨7/3, 0⟩).2).1 := by
  refine ⟨rfl, rfl, rfl, rfl, ?_⟩
  norm_num [nextGlobal, wrappedSin, mathFloat, mathNext, Int.fract]
